import Mathlib

set_option maxRecDepth 100000

/-!
Shallow embedding of the aggregation layer of the Indore city-statistics
dashboard (`src/dashboard_complete.py` and `src/data_handler.py`).

Tables (pandas DataFrames) are modelled column-wise as association lists of
named columns; pandas/numpy missing values (NaN) are an explicit constructor,
and Python exceptions are an error monad (`Except PyErr`).
-/

/-- A Python exception relevant to this code. -/
inductive PyErr where
  | keyError
  | typeError
  | zeroDivisionError
deriving DecidableEq, Repr

deriving instance DecidableEq for Except

/-- A cell of a loaded table: a string, a finite number, or missing (NaN). -/
inductive CellVal where
  | vStr (s : String)
  | vNum (q : ℚ)
  | vNone
deriving DecidableEq, Repr

/-- Numeric view of a cell; NaN and strings are not finite numbers. -/
def cellNum : CellVal → Option ℚ
  | .vNum q => some q
  | _ => none

/-- Wrap an optional number back into a cell (`none` is NaN). -/
def numToCell : Option ℚ → CellVal
  | some q => .vNum q
  | none => .vNone

/-- A pandas DataFrame, modelled as an association list of named columns. -/
structure Table where
  cols : List (String × List CellVal)
deriving DecidableEq, Repr

/-- The column labels of the frame, in order. -/
def Table.colNames (t : Table) : List String := t.cols.map Prod.fst

/-- Number of rows (length of the first column, 0 if no columns). -/
def Table.nrows (t : Table) : ℕ :=
  match t.cols with
  | [] => 0
  | c :: _ => c.2.length

/-- `df.empty`: true when the frame has no rows or no columns. -/
def Table.isEmpty (t : Table) : Bool :=
  t.cols.isEmpty || t.nrows == 0

/-- `df[c]`: column selection; raises `KeyError` when the column is absent. -/
def Table.col (t : Table) (c : String) : Except PyErr (List CellVal) :=
  match t.cols.lookup c with
  | some v => .ok v
  | none => .error .keyError

/-- Helper for `Table.setCol`: replace the first column named `c`, or append. -/
def setColAux (c : String) (vals : List CellVal) :
    List (String × List CellVal) → List (String × List CellVal)
  | [] => [(c, vals)]
  | (n, v) :: rest =>
    if n = c then (c, vals) :: rest else (n, v) :: setColAux c vals rest

/-- `df[c] = vals`: in-place column assignment on the frame. -/
def Table.setCol (t : Table) (c : String) (vals : List CellVal) : Table :=
  ⟨setColAux c vals t.cols⟩

/-- `df.iloc[0][c]`: the first entry of column `c` (frames are checked
nonempty before this is used). -/
def Table.cell0 (t : Table) (c : String) : Except PyErr CellVal :=
  match t.col c with
  | .ok v => .ok (v.headD .vNone)
  | .error e => .error e

/-- Round a rational to the nearest integer, ties to even (Python `round`). -/
def roundHalfEven (q : ℚ) : ℤ :=
  let f := ⌊q⌋
  if q - f < 1 / 2 then f
  else if (1 : ℚ) / 2 < q - f then f + 1
  else if f % 2 = 0 then f else f + 1

/-- Python `round(q, n)` on exact rationals. -/
def pyRound (n : ℕ) (q : ℚ) : ℚ := (roundHalfEven (q * 10 ^ n) : ℚ) / 10 ^ n

/-- Python `int()`: truncation toward zero. -/
def pyInt (q : ℚ) : ℚ := ((q.num / (q.den : ℤ) : ℤ) : ℚ)

/-- The natural number denoted by a list of decimal digits. -/
def digitsToNat (l : List Char) : ℕ :=
  l.foldl (fun a c => a * 10 + (c.toNat - 48)) 0

/-- Python `float(s)` restricted to optionally signed decimal literals (the
forms occurring in these datasets); anything else fails to parse. -/
def parseFloat (s : String) : Option ℚ :=
  let go : List Char → Option ℚ := fun cs =>
    match cs.span Char.isDigit with
    | (intPart, []) =>
      if intPart.isEmpty then none else some (digitsToNat intPart)
    | (intPart, '.' :: fracPart) =>
      if fracPart.all Char.isDigit && !(intPart.isEmpty && fracPart.isEmpty) then
        some ((digitsToNat intPart : ℚ) +
          (digitsToNat fracPart : ℚ) / 10 ^ fracPart.length)
      else none
    | _ => none
  match s.data with
  | '-' :: rest => (go rest).map (fun q => -q)
  | '+' :: rest => go rest
  | rest => go rest

/-- `DataProcessor.clean_numeric` (src/dashboard_complete.py): the sentinel
strings "NA"/"NaN" (case-insensitive, via `value.upper()`) become NaN;
otherwise `float(value)`, with any parse failure also becoming NaN. -/
def clean_numeric (v : CellVal) : Option ℚ :=
  match v with
  | .vStr s =>
    if s.toUpper = "NA" ∨ s.toUpper = "NAN" then none
    else parseFloat s
  | .vNum q => some q
  | .vNone => none

/-- The local `clean_numeric` inside `DataHandler.get_environment_stats`
(src/data_handler.py): `float(val) if pd.notna(val) else np.nan`, with any
exception giving NaN. It has no sentinel-string branch, but `float("NA")`
fails to parse and therefore also yields NaN. -/
def clean_numeric_dh (v : CellVal) : Option ℚ :=
  match v with
  | .vStr s => parseFloat s
  | .vNum q => some q
  | .vNone => none

/-- `DataProcessor.calculate_coverage` (src/dashboard_complete.py): 0 when
the denominator is 0 or NaN, otherwise
`round(numerator / denominator * 100, 2)`. -/
def calculate_coverage (numerator : ℚ) (denominator : Option ℚ) : ℚ :=
  match denominator with
  | none => 0
  | some d => if d = 0 then 0 else pyRound 2 (numerator / d * 100)

/-- pandas `Series.mean()`: NaN entries skipped; NaN when nothing remains. -/
def nanmean (l : List (Option ℚ)) : Option ℚ :=
  let vs := l.filterMap id
  if vs.length = 0 then none else some (vs.sum / (vs.length : ℚ))

/-- pandas `Series.sum()` on a numeric column: NaN skipped, empty sums to 0. -/
def colSum (l : List CellVal) : ℚ := (l.filterMap cellNum).sum

/-- Rows paired as (group key, value), as pandas `groupby` sees them: the
grouping columns of these datasets hold strings, and rows whose key cell is
not a string (NaN keys) are dropped, as `groupby` drops NaN keys. The value
keeps its optional numeric reading (NaN values are skipped by the sum). -/
def keyedRows (gcol vcol : List CellVal) : List (String × Option ℚ) :=
  (gcol.zip vcol).filterMap (fun gv =>
    match gv.1 with
    | .vStr s => some (s, cellNum gv.2)
    | _ => none)

/-- `df.groupby(k)[v].sum()`: one (key, sum of non-NaN values) pair per
distinct key. -/
def groupBySum (l : List (String × Option ℚ)) : List (String × ℚ) :=
  ((l.map Prod.fst).dedup).map (fun k =>
    (k, ((l.filter (fun p => p.1 = k)).filterMap Prod.snd).sum))

/-- Descending order on summed values (`sort_values(ascending=False)`). -/
def valGE (p q : String × ℚ) : Prop := q.2 ≤ p.2

instance : DecidableRel valGE :=
  fun p q => inferInstanceAs (Decidable (q.2 ≤ p.2))

instance : IsTotal (String × ℚ) valGE := ⟨fun a b => le_total b.2 a.2⟩

instance : IsTrans (String × ℚ) valGE := ⟨fun _ _ _ h1 h2 => le_trans h2 h1⟩

/-- `DataProcessor.get_zone_summary` (src/dashboard_complete.py): group the
frame by "Zone Name", sum `value_col` per zone, sort descending by value;
`None` when the frame is absent or empty, or — through the bare `except` —
when either column is missing. -/
def get_zone_summary (df : Option Table) (value_col : String) :
    Option (List (String × ℚ)) :=
  match df with
  | none => none
  | some t =>
    if t.isEmpty then none
    else
      match t.col "Zone Name", t.col value_col with
      | .ok gcol, .ok vcol =>
        some (List.insertionSort valGE (groupBySum (keyedRows gcol vcol)))
      | _, _ => none

/-- `DataProcessor.get_ward_summary` (src/dashboard_complete.py): as
`get_zone_summary` but grouped by "Ward Name" and truncated with
`.head(top_n)` applied after the descending sort. -/
def get_ward_summary (df : Option Table) (value_col : String) (top_n : ℕ) :
    Option (List (String × ℚ)) :=
  match df with
  | none => none
  | some t =>
    if t.isEmpty then none
    else
      match t.col "Ward Name", t.col value_col with
      | .ok gcol, .ok vcol =>
        some ((List.insertionSort valGE
          (groupBySum (keyedRows gcol vcol))).take top_n)
      | _, _ => none

/-- Result of trying to read one CSV file from the datasets directory. -/
inductive LoadResult where
  | table (t : Table)
  | missing
  | failure
deriving DecidableEq, Repr

/-- The five datasets of `DataLoader.load_all` (src/dashboard_complete.py). -/
def datasetFiles : List (String × String) :=
  [("water_sanitation", "unified_water_sanitation.csv"),
   ("environment", "unified_environment.csv"),
   ("crimes", "unified_crimes.csv"),
   ("intersections", "unified_intersections.csv"),
   ("employment", "unified_employment.csv")]

/-- The dataset keys of `DataLoader.load_all`, in insertion order. -/
def datasetKeys : List String := datasetFiles.map Prod.fst

/-- `DataLoader.load_all` (src/dashboard_complete.py): each dataset whose
file exists and parses is stored; a missing file stores `None`; a `read_csv`
failure is swallowed by the bare `except` and also stores `None`, and the
loop continues with the next dataset either way. -/
def load_all (fs : String → LoadResult) : List (String × Option Table) :=
  datasetFiles.map (fun kf =>
    (kf.1,
      match fs kf.2 with
      | .table t => some t
      | .missing => none
      | .failure => none))

/-- The five datasets of `DataHandler.load_data` (src/data_handler.py):
same files, different keys. -/
def dhFiles : List (String × String) :=
  [("water", "unified_water_sanitation.csv"),
   ("environment", "unified_environment.csv"),
   ("crimes", "unified_crimes.csv"),
   ("infrastructure", "unified_intersections.csv"),
   ("employment", "unified_employment.csv")]

/-- The dataset keys of `DataHandler.load_data`. -/
def dhKeys : List String := dhFiles.map Prod.fst

/-- `DataHandler.load_data` (src/data_handler.py): same per-dataset
isolation as `load_all`. -/
def load_data (fs : String → LoadResult) : List (String × Option Table) :=
  dhFiles.map (fun kf =>
    (kf.1,
      match fs kf.2 with
      | .table t => some t
      | .missing => none
      | .failure => none))

/-- `DashboardApp.get_water_sanitation_stats` (src/dashboard_complete.py):
empty dict for an absent or empty frame; otherwise the eight integer totals
followed by the two coverage percentages. A missing column raises `KeyError`
— the column lookups are not wrapped in any `try`. -/
def get_water_sanitation_stats (ws : Option Table) :
    Except PyErr (List (String × ℚ)) :=
  match ws with
  | none => .ok []
  | some t =>
    if t.isEmpty then .ok []
    else do
      let hh ← t.col "Total number of households (HH)"
      let sew ← t.col "HH part of the city sewerage network"
      let toil ← t.col "Number of Households with toilets"
      let pub ← t.col "Number of Public Toilet "
      let ffem ← t.col "Number of free public toilets - Female"
      let fmal ← t.col "Number of free public toilets - Male"
      let pfem ← t.col "Number of paid public toilets - Female"
      let pmal ← t.col "Number of paid public toilets - Male"
      let totalHH := pyInt (colSum hh)
      let sewS := pyInt (colSum sew)
      let toilS := pyInt (colSum toil)
      .ok [("total_households", totalHH),
           ("sewerage_coverage", sewS),
           ("toilet_coverage", toilS),
           ("public_toilets", pyInt (colSum pub)),
           ("free_toilets_female", pyInt (colSum ffem)),
           ("free_toilets_male", pyInt (colSum fmal)),
           ("paid_toilets_female", pyInt (colSum pfem)),
           ("paid_toilets_male", pyInt (colSum pmal)),
           ("sewerage_pct", calculate_coverage sewS (some totalHH)),
           ("toilet_pct", calculate_coverage toilS (some totalHH))]

/-- The new-column/source-column pairs cleaned by
`DashboardApp.get_environment_stats`, in program order. -/
def envSrcCols : List (String × String) :=
  [("PM2.5", "Monthly mean/average concentration - PM2.5"),
   ("PM10", "Monthly mean concentration - PM10"),
   ("NO2", "Monthly mean concentration - NO2"),
   ("SO2", "Monthly mean concentration - SO2"),
   ("O3", "Monthly mean concentration - O3")]

/-- The column-cleaning loop of `get_environment_stats`: for each pair
(new, src) in order, read column src, clean it and assign the result to
column new on the frame itself (`env[new] = env[src].apply(clean_numeric)`).
A missing source column stops the loop with a `KeyError`, leaving the frame
as already mutated up to that point. -/
def cleanCols : Table → List (String × String) → Table × Option PyErr
  | t, [] => (t, none)
  | t, (newC, srcC) :: rest =>
    match t.col srcC with
    | .error e => (t, some e)
    | .ok vals =>
      cleanCols (t.setCol newC ((vals.map clean_numeric).map numToCell)) rest

/-- `round(df[c].mean(), 2)`: NaN-skipping mean of a column read back from
the frame, rounded to 2 places; `none` is NaN (every entry NaN). The column
is always present here, having just been assigned by the cleaning loop. -/
def envMean (t : Table) (c : String) : Option ℚ :=
  match t.col c with
  | .ok vals => (nanmean (vals.map cellNum)).map (pyRound 2)
  | .error _ => none

/-- `DashboardApp.get_environment_stats` (src/dashboard_complete.py): cleans
the five pollutant columns, writing the cleaned values into new columns of
the cached frame itself (no `.copy()`), then returns the rounded NaN-skipping
means. The second component is the frame after the call — the mutated cache. -/
def get_environment_stats (env : Option Table) :
    Except PyErr (List (String × Option ℚ)) × Option Table :=
  match env with
  | none => (.ok [], none)
  | some t =>
    if t.isEmpty then (.ok [], some t)
    else
      match cleanCols t envSrcCols with
      | (t2, some e) => (.error e, some t2)
      | (t2, none) =>
        (.ok [("pm25_avg", envMean t2 "PM2.5"),
              ("pm10_avg", envMean t2 "PM10"),
              ("no2_avg", envMean t2 "NO2"),
              ("so2_avg", envMean t2 "SO2"),
              ("o3_avg", envMean t2 "O3")], some t2)

/-- Ascending order on the time cell of a (time, value) row: numeric order
with NaN placed last, as `sort_values` orders a numeric column. -/
def yearLEb (p q : CellVal × CellVal) : Bool :=
  match cellNum p.1, cellNum q.1 with
  | some a, some b => decide (a ≤ b)
  | none, some _ => false
  | _, _ => true

/-- Propositional form of `yearLEb`, the sort relation of the trends. -/
def yearLE (p q : CellVal × CellVal) : Prop := yearLEb p q = true

instance : DecidableRel yearLE :=
  fun p q => inferInstanceAs (Decidable (yearLEb p q = true))

instance : IsTotal (CellVal × CellVal) yearLE :=
  ⟨fun p q => by
    unfold yearLE yearLEb
    rcases cellNum p.1 with _ | a <;> rcases cellNum q.1 with _ | b <;> simp
    exact le_total a b⟩

instance : IsTrans (CellVal × CellVal) yearLE :=
  ⟨fun p q r h1 h2 => by
    unfold yearLE yearLEb at h1 h2 ⊢
    rcases hp : cellNum p.1 with _ | a <;> rcases hq : cellNum q.1 with _ | b <;>
      rcases hr : cellNum r.1 with _ | c <;> simp_all
    exact h1.trans h2⟩

/-- `DashboardApp.get_crimes_trend` (src/dashboard_complete.py): `None` for
an absent or empty frame, `KeyError` for a missing column, otherwise the
(Year, total crimes) rows sorted ascending by Year. -/
def get_crimes_trend (crimes : Option Table) :
    Except PyErr (Option (List (CellVal × CellVal))) :=
  match crimes with
  | none => .ok none
  | some t =>
    if t.isEmpty then .ok none
    else do
      let ycol ← t.col "Year"
      let vcol ← t.col "Total number of crimes recorded"
      .ok (some (List.insertionSort yearLE (ycol.zip vcol)))

/-- `DataHandler.get_crime_data` (src/data_handler.py): the same selection
of (Year, total crimes) and the same ascending `sort_values('Year')`. -/
def get_crime_data (crimes : Option Table) :
    Except PyErr (Option (List (CellVal × CellVal))) :=
  match crimes with
  | none => .ok none
  | some t =>
    if t.isEmpty then .ok none
    else do
      let ycol ← t.col "Year"
      let vcol ← t.col "Total number of crimes recorded"
      .ok (some (List.insertionSort yearLE (ycol.zip vcol)))

/-- `l.drop (l.length - n)`: pandas `.tail(n)`, the last n rows in frame
order. -/
def tailN (n : ℕ) (l : List α) : List α := l.drop (l.length - n)

/-- `DashboardApp.get_environment_trend` (src/dashboard_complete.py): copies
the frame (`env.copy()`, so the cache is untouched), cleans PM2.5 and PM10,
then returns `.tail(12)` of (Month -Year, PM2.5, PM10) — the last 12 rows in
frame order; there is no sort. -/
def get_environment_trend (env : Option Table) :
    Except PyErr (Option (List (CellVal × Option ℚ × Option ℚ))) :=
  match env with
  | none => .ok none
  | some t =>
    if t.isEmpty then .ok none
    else do
      let p25 ← t.col "Monthly mean/average concentration - PM2.5"
      let p10 ← t.col "Monthly mean concentration - PM10"
      let my ← t.col "Month -Year"
      .ok (some (tailN 12
        (my.zip ((p25.map clean_numeric).zip (p10.map clean_numeric)))))

/-- Numeric value of a cell used as an arithmetic operand. A string or NaN
operand makes the Python dict construction raise (`TypeError` on the
division for strings, `ValueError` at `int(...)` for NaN); both are
modelled as `typeError`. -/
def cellArith (v : CellVal) : Except PyErr ℚ :=
  match v with
  | .vNum q => .ok q
  | _ => .error .typeError

/-- `DashboardApp.get_employment_stats` (src/dashboard_complete.py): reads
the first row and computes both rates with a bare division — there is no
zero-denominator guard. A zero labour force therefore does not produce 0:
with plain int operands Python raises `ZeroDivisionError`, and with numpy
scalar operands the division yields inf or nan, not a finite number. Both
outcomes are modelled as `zeroDivisionError`. -/
def get_employment_stats (emp : Option Table) :
    Except PyErr (List (String × ℚ)) :=
  match emp with
  | none => .ok []
  | some t =>
    if t.isEmpty then .ok []
    else do
      let unemployed ← cellArith
        (← t.cell0 "No. of unemployed persons (seeking or available for work)")
      let employed ← cellArith (← t.cell0 "No. of employed persons")
      let lf ← cellArith (← t.cell0
        "Total labour force in the city (age 15-59) [Employed + Unemployed Persons)")
      if lf = 0 then .error .zeroDivisionError
      else
        .ok [("unemployed", pyInt unemployed),
             ("employed", pyInt employed),
             ("labour_force", pyInt lf),
             ("unemployment_rate", pyRound 2 (unemployed / lf * 100)),
             ("employment_rate", pyRound 2 (employed / lf * 100))]

/-- `DataHandler.get_employment_stats` (src/data_handler.py): converts the
row values with `int(...)` first and guards its single rate with
`if labour_force > 0 else 0` (lazily, so a zero labour force never divides). -/
def get_employment_stats_dh (emp : Option Table) :
    Except PyErr (List (String × ℚ)) :=
  match emp with
  | none => .ok []
  | some t =>
    if t.isEmpty then .ok []
    else do
      let unemployed ← cellArith
        (← t.cell0 "No. of unemployed persons (seeking or available for work)")
      let employed ← cellArith (← t.cell0 "No. of employed persons")
      let lf ← cellArith (← t.cell0
        "Total labour force in the city (age 15-59) [Employed + Unemployed Persons)")
      let u := pyInt unemployed
      let e := pyInt employed
      let l := pyInt lf
      .ok [("labour_force", l),
           ("employed", e),
           ("unemployed", u),
           ("unemployment_rate",
             if 0 < l then pyRound 2 (u / l * 100) else 0)]

/-- `DataHandler.get_water_stats` (src/data_handler.py): four integer totals
and two percentages, each percentage guarded with
`if total_households > 0 else 0`. -/
def get_water_stats (ws : Option Table) : Except PyErr (List (String × ℚ)) :=
  match ws with
  | none => .ok []
  | some t =>
    if t.isEmpty then .ok []
    else do
      let hh ← t.col "Total number of households (HH)"
      let sew ← t.col "HH part of the city sewerage network"
      let toil ← t.col "Number of Households with toilets"
      let pub ← t.col "Number of Public Toilet "
      let totalHH := pyInt (colSum hh)
      let sewS := pyInt (colSum sew)
      let toilS := pyInt (colSum toil)
      .ok [("total_households", totalHH),
           ("sewerage_coverage", sewS),
           ("toilet_coverage", toilS),
           ("public_toilets", pyInt (colSum pub)),
           ("sewerage_pct",
             if 0 < totalHH then pyRound 1 (sewS / totalHH * 100) else 0),
           ("toilet_pct",
             if 0 < totalHH then pyRound 1 (toilS / totalHH * 100) else 0)]

/-- `DataHandler.get_infrastructure_stats` (src/data_handler.py): two
totals and one percentage guarded with `if total > 0 else 0`. -/
def get_infrastructure_stats (df : Option Table) :
    Except PyErr (List (String × ℚ)) :=
  match df with
  | none => .ok []
  | some t =>
    if t.isEmpty then .ok []
    else do
      let tot ← t.col "No. of intersections / junctions"
      let sig ← t.col "Total number of operational signalized intersections"
      let totS := pyInt (colSum tot)
      let sigS := pyInt (colSum sig)
      .ok [("total_intersections", totS),
           ("signalized_intersections", sigS),
           ("signalization_pct",
             if 0 < totS then pyRound 1 (sigS / totS * 100) else 0)]

/-- `DataHandler.get_environment_stats` (src/data_handler.py): applies its
local `clean_numeric` to three pollutant columns without touching the frame,
and maps an all-NaN mean to 0. -/
def get_environment_stats_dh (env : Option Table) :
    Except PyErr (List (String × ℚ)) :=
  match env with
  | none => .ok []
  | some t =>
    if t.isEmpty then .ok []
    else do
      let p25 ← t.col "Monthly mean/average concentration - PM2.5"
      let p10 ← t.col "Monthly mean concentration - PM10"
      let n2 ← t.col "Monthly mean concentration - NO2"
      let m25 := nanmean (p25.map clean_numeric_dh)
      let m10 := nanmean (p10.map clean_numeric_dh)
      let mn2 := nanmean (n2.map clean_numeric_dh)
      .ok [("pm25_avg", match m25 with | some q => pyRound 1 q | none => 0),
           ("pm10_avg", match m10 with | some q => pyRound 1 q | none => 0),
           ("no2_avg", match mn2 with | some q => pyRound 2 q | none => 0)]

/-- `DataHandler.get_zone_data` (src/data_handler.py):
`self.datasets[dataset]` is plain dict indexing — an unknown dataset name
raises `KeyError` before any absence check. Then an absent or empty frame
or a missing "Zone Name" column gives `None`, and the `try` around the
grouping turns a missing value column into `None` as well. -/
def get_zone_data (datasets : List (String × Option Table))
    (dataset value_col : String) : Except PyErr (Option (List (String × ℚ))) :=
  match datasets.lookup dataset with
  | none => .error .keyError
  | some df =>
    match df with
    | none => .ok none
    | some t =>
      if t.isEmpty then .ok none
      else if "Zone Name" ∈ t.colNames then
        match t.col "Zone Name", t.col value_col with
        | .ok gcol, .ok vcol =>
          .ok (some (List.insertionSort valGE (groupBySum (keyedRows gcol vcol))))
        | _, _ => .ok none
      else .ok none

/-- The dashboard's dataset cache `self.data`, keyed by dataset name. -/
abbrev AppState : Type := List (String × Option Table)

/-- `self.data[k]` where `k` is one of the keys stored by `load_all`. -/
def dsGet (st : AppState) (k : String) : Option Table := (st.lookup k).join

/-- Mutation of the frame object stored under key `k` (dict keys unchanged). -/
def dsSet (st : AppState) (k : String) (v : Option Table) : AppState :=
  st.map (fun p => if p.1 = k then (k, v) else p)

/-- `app.get_water_sanitation_stats()` as a state transformer on the cache:
the method only reads `self.data`. -/
def appWaterStats (st : AppState) :
    Except PyErr (List (String × ℚ)) × AppState :=
  (get_water_sanitation_stats (dsGet st "water_sanitation"), st)

/-- `app.get_environment_stats()` as a state transformer: the cleaning loop
writes the five derived columns into the cached environment frame. -/
def appEnvStats (st : AppState) :
    Except PyErr (List (String × Option ℚ)) × AppState :=
  let r := get_environment_stats (dsGet st "environment")
  (r.1, dsSet st "environment" r.2)

/-- `app.get_crimes_trend()` as a state transformer: reads only. -/
def appCrimesTrend (st : AppState) :
    Except PyErr (Option (List (CellVal × CellVal))) × AppState :=
  (get_crimes_trend (dsGet st "crimes"), st)

/-- `app.get_employment_stats()` as a state transformer: reads only. -/
def appEmploymentStats (st : AppState) :
    Except PyErr (List (String × ℚ)) × AppState :=
  (get_employment_stats (dsGet st "employment"), st)

/-- `app.get_environment_trend()` as a state transformer: works on
`env.copy()`, so the cache is untouched. -/
def appEnvTrend (st : AppState) :
    Except PyErr (Option (List (CellVal × Option ℚ × Option ℚ))) × AppState :=
  (get_environment_trend (dsGet st "environment"), st)

/-! Concrete fixture tables used to instantiate the theorems. -/

/-- A present, nonempty water table lacking every expected column. -/
def wsBad : Table := ⟨[("Ward Name", [.vStr "W1"]), ("X", [.vNum 1])]⟩

/-- A single-row employment table whose labour force is 0. -/
def empZeroT : Table :=
  ⟨[("No. of unemployed persons (seeking or available for work)", [.vNum 5]),
    ("No. of employed persons", [.vNum 0]),
    ("Total labour force in the city (age 15-59) [Employed + Unemployed Persons)",
      [.vNum 0])]⟩

/-- A water table whose household total sums to 0. -/
def waterZeroT : Table :=
  ⟨[("Total number of households (HH)", [.vNum 0]),
    ("HH part of the city sewerage network", [.vNum 3]),
    ("Number of Households with toilets", [.vNum 2]),
    ("Number of Public Toilet ", [.vNum 1])]⟩

/-- An intersections table whose intersection total sums to 0. -/
def intrZeroT : Table :=
  ⟨[("No. of intersections / junctions", [.vNum 0]),
    ("Total number of operational signalized intersections", [.vNum 4])]⟩

/-- Crimes rows for years [2019, 2021, 2020] with counts [100, 300, 200]. -/
def crimesT : Table :=
  ⟨[("Year", [.vNum 2019, .vNum 2021, .vNum 2020]),
    ("Total number of crimes recorded", [.vNum 100, .vNum 300, .vNum 200])]⟩

/-- An environment table whose Month -Year values arrive out of order. -/
def envTrendT : Table :=
  ⟨[("Month -Year", [.vStr "2021-02", .vStr "2021-01"]),
    ("Monthly mean/average concentration - PM2.5", [.vNum 10, .vNum 20]),
    ("Monthly mean concentration - PM10", [.vNum 1, .vNum 2])]⟩

/-- A small complete environment table. -/
def envC8 : Table :=
  ⟨[("Monthly mean/average concentration - PM2.5", [.vStr "10"]),
    ("Monthly mean concentration - PM10", [.vNum 3]),
    ("Monthly mean concentration - NO2", [.vNum 4]),
    ("Monthly mean concentration - SO2", [.vNum 5]),
    ("Monthly mean concentration - O3", [.vNum 6])]⟩

/-- A dashboard cache holding only the environment table. -/
def stC8 : AppState := [("environment", some envC8)]

/-- An environment table whose PM2.5 column is ["10", "NA", "20"]. -/
def envC5 : Table :=
  ⟨[("Monthly mean/average concentration - PM2.5",
      [.vStr "10", .vStr "NA", .vStr "20"]),
    ("Monthly mean concentration - PM10", [.vNum 1, .vNum 2, .vNum 3]),
    ("Monthly mean concentration - NO2", [.vNum 1, .vNum 2, .vNum 3]),
    ("Monthly mean concentration - SO2", [.vNum 1, .vNum 2, .vNum 3]),
    ("Monthly mean concentration - O3", [.vNum 1, .vNum 2, .vNum 3])]⟩

/-- A table with ward, zone and value columns for the grouping claims. -/
def wardT : Table :=
  ⟨[("Ward Name", [.vStr "A", .vStr "B", .vStr "A", .vStr "C"]),
    ("Zone Name", [.vStr "Z1", .vStr "Z2", .vStr "Z1", .vStr "Z2"]),
    ("V", [.vNum 1, .vNum 5, .vNum 2, .vNum 4])]⟩

/-- Read one metric out of a summary result: `stats[k]` after a successful
call, `none` when the call raised or the metric is absent. -/
def okLookup {α : Type} (r : Except PyErr (List (String × α))) (k : String) :
    Option α :=
  match r with
  | .ok l => l.lookup k
  | .error _ => none

/-! Helper lemmas about the embedding. -/

theorem clean_numeric_vStr (s : String) :
    clean_numeric (.vStr s) =
      if s.toUpper = "NA" ∨ s.toUpper = "NAN" then none else parseFloat s := rfl

theorem lookup_eq_none_of_not_mem {β : Type} (l : List (String × β)) (k : String)
    (h : k ∉ l.map Prod.fst) : l.lookup k = none := by
  induction l with
  | nil => rfl
  | cons p rest ih =>
    obtain ⟨k1, v1⟩ := p
    simp only [List.map_cons, List.mem_cons, not_or] at h
    have hne : (k == k1) = false := beq_eq_false_iff_ne.mpr h.1
    simp [List.lookup, hne, ih h.2]

theorem col_error_of_not_mem (t : Table) (c : String) (h : c ∉ t.colNames) :
    t.col c = .error .keyError := by
  unfold Table.col
  rw [lookup_eq_none_of_not_mem t.cols c h]

theorem lookup_setColAux_self (c : String) (vals : List CellVal) :
    ∀ l : List (String × List CellVal), (setColAux c vals l).lookup c = some vals := by
  intro l
  induction l with
  | nil => simp [setColAux, List.lookup]
  | cons p rest ih =>
    obtain ⟨k1, v1⟩ := p
    by_cases hk : k1 = c
    · subst hk; simp [setColAux, List.lookup]
    · have hne : (c == k1) = false := beq_eq_false_iff_ne.mpr (Ne.symm hk)
      simp [setColAux, hk, List.lookup, hne, ih]

theorem lookup_setColAux_ne (c c2 : String) (vals : List CellVal) (h : c ≠ c2) :
    ∀ l : List (String × List CellVal),
      (setColAux c2 vals l).lookup c = l.lookup c := by
  intro l
  induction l with
  | nil => simp [setColAux, List.lookup, beq_eq_false_iff_ne.mpr h]
  | cons p rest ih =>
    obtain ⟨k1, v1⟩ := p
    by_cases hk : k1 = c2
    · subst hk
      simp [setColAux, List.lookup, beq_eq_false_iff_ne.mpr h]
    · simp only [setColAux, if_neg hk]
      by_cases hck : c = k1
      · subst hck; simp [List.lookup]
      · have hne : (c == k1) = false := beq_eq_false_iff_ne.mpr hck
        simp [List.lookup, hne, ih]

theorem col_setCol_self (t : Table) (c : String) (vals : List CellVal) :
    (t.setCol c vals).col c = .ok vals := by
  unfold Table.setCol Table.col
  rw [lookup_setColAux_self]

theorem col_setCol_ne (t : Table) (c c2 : String) (vals : List CellVal)
    (h : c ≠ c2) : (t.setCol c2 vals).col c = t.col c := by
  unfold Table.setCol Table.col
  rw [lookup_setColAux_ne c c2 vals h]

theorem cellNum_numToCell (o : Option ℚ) : cellNum (numToCell o) = o := by
  cases o <;> rfl

theorem lookup_dsSet_ne (st : AppState) (k0 k : String) (v : Option Table)
    (h : k ≠ k0) : (dsSet st k0 v).lookup k = st.lookup k := by
  unfold dsSet
  induction st with
  | nil => rfl
  | cons p rest ih =>
    obtain ⟨k1, v1⟩ := p
    by_cases hk : k1 = k0
    · subst hk
      simp only [List.map_cons]
      rw [if_pos trivial]
      simp [List.lookup, beq_eq_false_iff_ne.mpr h, ih]
    · simp only [List.map_cons]
      rw [if_neg (show ¬(k1, v1).1 = k0 from hk)]
      by_cases hck : k = k1
      · subst hck; simp [List.lookup]
      · have hne : (k == k1) = false := beq_eq_false_iff_ne.mpr hck
        simp [List.lookup, hne, ih]

theorem pyInt_zero : pyInt 0 = 0 := by with_unfolding_all decide

theorem pyRound_zero (n : ℕ) : pyRound n 0 = 0 := by
  have h : roundHalfEven 0 = 0 := by with_unfolding_all decide
  simp [pyRound, h]


/-! Claim theorems. -/

/-- C1 counterexample: the claim says the coverage ratio returns 0 for every
non-positive denominator, but for the negative denominator -200 the code
falls through the `denominator == 0 or pd.isna(denominator)` guard and
returns round(50 / -200 * 100, 2) = -25, not 0. -/
theorem C1_counterexample :
    calculate_coverage 50 (some (-200)) ≠ 0 ∧
    calculate_coverage 50 (some (-200)) = -25 := by
  constructor
  · with_unfolding_all decide
  · with_unfolding_all decide

/-- C1 (amended): `calculate_coverage` returns 0 when the denominator is
zero or missing — but not for merely non-positive (negative) denominators —
and otherwise returns round(numerator/denominator*100, 2); in particular
coverage(n, 0) = 0 for every n, coverage(0, d) = 0 for every d > 0, and
coverage(50, 200) = 25. -/
theorem C1_coverage_ratio :
    (∀ n : ℚ, calculate_coverage n (some 0) = 0) ∧
    (∀ n : ℚ, calculate_coverage n none = 0) ∧
    (∀ n d : ℚ, d ≠ 0 →
      calculate_coverage n (some d) = pyRound 2 (n / d * 100)) ∧
    (∀ d : ℚ, 0 < d → calculate_coverage 0 (some d) = 0) ∧
    calculate_coverage 50 (some 200) = 25 := by
  refine ⟨fun n => rfl, fun n => rfl, fun n d hd => ?_, fun d hd => ?_, ?_⟩
  · simp [calculate_coverage, hd]
  · have hd0 : d ≠ 0 := ne_of_gt hd
    simp [calculate_coverage, hd0, pyRound_zero]
  · with_unfolding_all decide

/-- Witness for C1: the hypotheses of `C1_coverage_ratio` hold at d = 3. -/
theorem C1_coverage_ratio_witness :
    ((3 : ℚ) ≠ 0 ∧ calculate_coverage 7 (some 3) = pyRound 2 (7 / 3 * 100)) ∧
    ((0 : ℚ) < 3 ∧ calculate_coverage 0 (some 3) = 0) :=
  ⟨⟨by with_unfolding_all decide,
    C1_coverage_ratio.2.2.1 7 3 (by with_unfolding_all decide)⟩,
   ⟨by with_unfolding_all decide,
    C1_coverage_ratio.2.2.2.1 3 (by with_unfolding_all decide)⟩⟩

/-- C4: `clean_numeric` maps the sentinel strings "NA"/"NaN" (matched
case-insensitively through `value.upper()`) to missing, maps every other
string to its parse result — missing exactly when unparseable — passes
numbers through, and maps a NaN input to missing; in particular "NA", "nan"
and "abc" are missing while "12.5" parses to 12.5. -/
theorem C4_clean_numeric :
    (∀ s : String, s.toUpper = "NA" ∨ s.toUpper = "NAN" →
      clean_numeric (.vStr s) = none) ∧
    (∀ s : String, ¬(s.toUpper = "NA" ∨ s.toUpper = "NAN") →
      clean_numeric (.vStr s) = parseFloat s) ∧
    (∀ q : ℚ, clean_numeric (.vNum q) = some q) ∧
    clean_numeric .vNone = none ∧
    clean_numeric (.vStr "NA") = none ∧
    clean_numeric (.vStr "nan") = none ∧
    clean_numeric (.vStr "abc") = none ∧
    clean_numeric (.vStr "12.5") = some (25 / 2) := by
  refine ⟨fun s hs => ?_, fun s hs => ?_, fun q => rfl, rfl, ?_, ?_, ?_, ?_⟩
  · rw [clean_numeric_vStr, if_pos hs]
  · rw [clean_numeric_vStr, if_neg hs]
  all_goals with_unfolding_all decide

/-- Witness for C4: the two conditional conjuncts instantiated at the
concrete strings "Na" (a sentinel) and "7.25" (a parseable number). -/
theorem C4_clean_numeric_witness :
    (("Na".toUpper = "NA" ∨ "Na".toUpper = "NAN") ∧
      clean_numeric (.vStr "Na") = none) ∧
    (¬("7.25".toUpper = "NA" ∨ "7.25".toUpper = "NAN") ∧
      clean_numeric (.vStr "7.25") = parseFloat "7.25") :=
  ⟨⟨by with_unfolding_all decide,
    C4_clean_numeric.1 "Na" (by with_unfolding_all decide)⟩,
   ⟨by with_unfolding_all decide,
    C4_clean_numeric.2.1 "7.25" (by with_unfolding_all decide)⟩⟩

/-- C9: `load_all` (and `load_data`) store all five dataset keys in order,
and each entry is determined solely by the outcome for that dataset's own
file — a table when the file exists and parses, `None` when it is missing,
and `None` again when reading fails, the loop continuing either way. No
outcome for one file affects any other dataset's entry, and no exception
escapes (the function is total). -/
theorem C9_load_all (fs : String → LoadResult) :
    ((load_all fs).map Prod.fst = datasetKeys ∧
     (load_data fs).map Prod.fst = dhKeys) ∧
    (∀ k f, (k, f) ∈ datasetFiles →
      (load_all fs).lookup k =
        some (match fs f with
          | .table t => some t
          | .missing => none
          | .failure => none)) ∧
    (∀ k f, (k, f) ∈ dhFiles →
      (load_data fs).lookup k =
        some (match fs f with
          | .table t => some t
          | .missing => none
          | .failure => none)) := by
  refine ⟨⟨rfl, rfl⟩, fun k f h => ?_, fun k f h => ?_⟩
  · simp only [datasetFiles, List.mem_cons, Prod.mk.injEq,
      List.not_mem_nil, or_false] at h
    rcases h with ⟨rfl, rfl⟩ | ⟨rfl, rfl⟩ | ⟨rfl, rfl⟩ | ⟨rfl, rfl⟩ | ⟨rfl, rfl⟩ <;> rfl
  · simp only [dhFiles, List.mem_cons, Prod.mk.injEq,
      List.not_mem_nil, or_false] at h
    rcases h with ⟨rfl, rfl⟩ | ⟨rfl, rfl⟩ | ⟨rfl, rfl⟩ | ⟨rfl, rfl⟩ | ⟨rfl, rfl⟩ <;> rfl

/-- Witness for C9: loading with every file missing still yields an entry
for the "crimes" key, holding the absent indicator. -/
theorem C9_load_all_witness :
    ("crimes", "unified_crimes.csv") ∈ datasetFiles ∧
    (load_all (fun _ => .missing)).lookup "crimes" = some none :=
  ⟨by decide,
   (C9_load_all (fun _ => .missing)).2.1 "crimes" "unified_crimes.csv" (by decide)⟩

/-- C10: calling `get_zone_data` with a dataset name outside the five
loaded keys raises `KeyError` (the dict is indexed before any absence
check) instead of returning the absent sentinel. -/
theorem C10_unknown_dataset_key_error (st : List (String × Option Table))
    (name vc : String) (hkeys : st.map Prod.fst = dhKeys)
    (hname : name ∉ dhKeys) :
    get_zone_data st name vc = .error .keyError := by
  have hnone : st.lookup name = none := by
    apply lookup_eq_none_of_not_mem
    rw [hkeys]; exact hname
  unfold get_zone_data
  rw [hnone]

/-- Witness for C10: the freshly loaded store (all files missing) with the
unknown name "foo". -/
theorem C10_unknown_dataset_key_error_witness :
    (load_data (fun _ => .missing)).map Prod.fst = dhKeys ∧
    "foo" ∉ dhKeys ∧
    get_zone_data (load_data (fun _ => .missing)) "foo" "V" = .error .keyError :=
  ⟨rfl, by decide,
   C10_unknown_dataset_key_error (load_data (fun _ => .missing)) "foo" "V" rfl
     (by decide)⟩

/-- C8 counterexample: the claim says no query call changes the stored
tables, but `get_environment_stats` writes the five cleaned pollutant
columns into the cached environment frame, so the cache differs after the
call. -/
theorem C8_counterexample : (appEnvStats stC8).2 ≠ stC8 := by
  with_unfolding_all decide

/-- C8 (amended): the water, crimes, employment and environment-trend
queries leave the cache untouched, and `get_environment_stats` changes no
entry other than the environment one (it mutates the cached environment
frame by assigning the cleaned pollutant columns). -/
theorem C8_no_mutation_except_env_stats (st : AppState) (k : String)
    (hk : k ≠ "environment") :
    (appWaterStats st).2 = st ∧
    (appCrimesTrend st).2 = st ∧
    (appEmploymentStats st).2 = st ∧
    (appEnvTrend st).2 = st ∧
    ((appEnvStats st).2).lookup k = st.lookup k :=
  ⟨rfl, rfl, rfl, rfl, lookup_dsSet_ne st "environment" k _ hk⟩

/-- Witness for C8: the amended statement at the concrete cache `stC8` and
the key "crimes". -/
theorem C8_no_mutation_except_env_stats_witness :
    ("crimes" : String) ≠ "environment" ∧
    (appWaterStats stC8).2 = stC8 ∧
    ((appEnvStats stC8).2).lookup "crimes" = stC8.lookup "crimes" :=
  ⟨by decide,
   (C8_no_mutation_except_env_stats stC8 "crimes" (by decide)).1,
   (C8_no_mutation_except_env_stats stC8 "crimes" (by decide)).2.2.2.2⟩

/-- C2 counterexample: a present, nonempty water table that lacks the
expected household column makes `get_water_sanitation_stats` raise
`KeyError` — the claim says a missing column yields the empty mapping. -/
theorem C2_counterexample :
    wsBad.isEmpty = false ∧
    get_water_sanitation_stats (some wsBad) = .error .keyError := by
  constructor
  · decide
  · with_unfolding_all decide

/-- C2 (amended): every query method returns its empty/absent sentinel when
the dataset is absent or the table is empty, and the grouping methods also
return the absent sentinel when a needed column is missing (their bare
`except` swallows the `KeyError`); but the summary and trend methods have no
such `try` and propagate a `KeyError` when an expected column is missing
from a present, nonempty table. -/
theorem C2_fail_soft (t : Table) (ht : t.isEmpty = true) (vc : String) (k : ℕ) :
    (get_water_sanitation_stats none = .ok [] ∧
     get_water_sanitation_stats (some t) = .ok []) ∧
    (get_environment_stats none = (.ok [], none) ∧
     get_environment_stats (some t) = (.ok [], some t)) ∧
    (get_employment_stats none = .ok [] ∧
     get_employment_stats (some t) = .ok []) ∧
    (get_employment_stats_dh none = .ok [] ∧
     get_employment_stats_dh (some t) = .ok []) ∧
    (get_water_stats none = .ok [] ∧ get_water_stats (some t) = .ok []) ∧
    (get_infrastructure_stats none = .ok [] ∧
     get_infrastructure_stats (some t) = .ok []) ∧
    (get_environment_stats_dh none = .ok [] ∧
     get_environment_stats_dh (some t) = .ok []) ∧
    (get_crimes_trend none = .ok none ∧ get_crimes_trend (some t) = .ok none) ∧
    (get_crime_data none = .ok none ∧ get_crime_data (some t) = .ok none) ∧
    (get_environment_trend none = .ok none ∧
     get_environment_trend (some t) = .ok none) ∧
    (get_zone_summary none vc = none ∧ get_zone_summary (some t) vc = none) ∧
    (get_ward_summary none vc k = none ∧
     get_ward_summary (some t) vc k = none) ∧
    (∀ t2 : Table, "Zone Name" ∉ t2.colNames →
      get_zone_summary (some t2) vc = none) ∧
    (∀ t2 : Table, "Ward Name" ∉ t2.colNames →
      get_ward_summary (some t2) vc k = none) ∧
    (∀ ds : List (String × Option Table), ∀ name : String,
      ds.lookup name = some none → get_zone_data ds name vc = .ok none) := by
  refine ⟨⟨rfl, ?_⟩, ⟨rfl, ?_⟩, ⟨rfl, ?_⟩, ⟨rfl, ?_⟩, ⟨rfl, ?_⟩, ⟨rfl, ?_⟩,
    ⟨rfl, ?_⟩, ⟨rfl, ?_⟩, ⟨rfl, ?_⟩, ⟨rfl, ?_⟩, ⟨rfl, ?_⟩, ⟨rfl, ?_⟩,
    fun t2 h2 => ?_, fun t2 h2 => ?_, fun ds name h => ?_⟩
  · simp [get_water_sanitation_stats, ht]
  · simp [get_environment_stats, ht]
  · simp [get_employment_stats, ht]
  · simp [get_employment_stats_dh, ht]
  · simp [get_water_stats, ht]
  · simp [get_infrastructure_stats, ht]
  · simp [get_environment_stats_dh, ht]
  · simp [get_crimes_trend, ht]
  · simp [get_crime_data, ht]
  · simp [get_environment_trend, ht]
  · simp [get_zone_summary, ht]
  · simp [get_ward_summary, ht]
  · have hcol := col_error_of_not_mem t2 "Zone Name" h2
    by_cases he : t2.isEmpty
    · simp [get_zone_summary, he]
    · simp [get_zone_summary, he, hcol]
  · have hcol := col_error_of_not_mem t2 "Ward Name" h2
    by_cases he : t2.isEmpty
    · simp [get_ward_summary, he]
    · simp [get_ward_summary, he, hcol]
  · unfold get_zone_data
    rw [h]

/-- Witness for C2: the amended statement at the empty table, at a table
lacking the grouping columns, and at a store whose entry is absent. -/
theorem C2_fail_soft_witness :
    (Table.isEmpty ⟨[]⟩ = true ∧
      get_water_sanitation_stats (some ⟨[]⟩) = .ok []) ∧
    ("Zone Name" ∉ wsBad.colNames ∧ get_zone_summary (some wsBad) "V" = none) ∧
    (List.lookup "water" [("water", (none : Option Table))] = some none ∧
      get_zone_data [("water", none)] "water" "V" = .ok none) := by
  have H := C2_fail_soft ⟨[]⟩ (by decide) "V" 3
  obtain ⟨hw, he, hemp, hempdh, hwdh, hinfra, henvdh, hct, hcd, het, hz,
    hwrd, hzmiss, hwmiss, hzd⟩ := H
  exact ⟨⟨by decide, hw.2⟩, ⟨by decide, hzmiss wsBad (by decide)⟩,
    ⟨by decide, hzd [("water", none)] "water" (by decide)⟩⟩

/-- C3 counterexample: the two employment rates in the complete dashboard
divide by the labour force with no zero guard; with labour force 0 the
computation fails (ZeroDivisionError with int operands, inf/nan with numpy
scalars) instead of yielding 0 as the shared ratio policy demands. -/
theorem C3_counterexample :
    get_employment_stats (some empZeroT) = .error .zeroDivisionError := by
  with_unfolding_all decide

/-- C3 (amended): `calculate_coverage` and every guarded rate in the simple
handler (water sewerage/toilet percentages, infrastructure signalization,
employment unemployment rate) yield 0 on a zero or missing denominator and
round(numerator/denominator*100, N) otherwise; but the unemployment_rate and
employment_rate of `DashboardApp.get_employment_stats` divide unguarded and
fail on a zero labour force instead of yielding 0. -/
theorem C3_rate_policy :
    (∀ n : ℚ, calculate_coverage n (some 0) = 0 ∧
      calculate_coverage n none = 0) ∧
    (∀ n d : ℚ, d ≠ 0 →
      calculate_coverage n (some d) = pyRound 2 (n / d * 100)) ∧
    get_water_stats (some waterZeroT) =
      .ok [("total_households", 0), ("sewerage_coverage", 3),
           ("toilet_coverage", 2), ("public_toilets", 1),
           ("sewerage_pct", 0), ("toilet_pct", 0)] ∧
    get_infrastructure_stats (some intrZeroT) =
      .ok [("total_intersections", 0), ("signalized_intersections", 4),
           ("signalization_pct", 0)] ∧
    get_employment_stats_dh (some empZeroT) =
      .ok [("labour_force", 0), ("employed", 0), ("unemployed", 5),
           ("unemployment_rate", 0)] ∧
    get_employment_stats (some empZeroT) = .error .zeroDivisionError := by
  refine ⟨fun n => ⟨rfl, rfl⟩, fun n d hd => by simp [calculate_coverage, hd],
    ?_, ?_, ?_, ?_⟩
  all_goals with_unfolding_all decide

/-- Witness for C3: the nonzero-denominator conjunct at d = 4. -/
theorem C3_rate_policy_witness :
    (4 : ℚ) ≠ 0 ∧ calculate_coverage 9 (some 4) = pyRound 2 (9 / 4 * 100) :=
  ⟨by with_unfolding_all decide,
   C3_rate_policy.2.1 9 4 (by with_unfolding_all decide)⟩

theorem cleanCols_cons (t : Table) (newC srcC : String)
    (rest : List (String × String)) (vals : List CellVal)
    (h : t.col srcC = .ok vals) :
    cleanCols t ((newC, srcC) :: rest) =
      cleanCols (t.setCol newC ((vals.map clean_numeric).map numToCell)) rest := by
  simp [cleanCols, h]

theorem envstats_unfold (t E : Table) (hne : t.isEmpty = false)
    (hclean : cleanCols t envSrcCols = (E, none)) :
    get_environment_stats (some t) =
      (.ok [("pm25_avg", envMean E "PM2.5"), ("pm10_avg", envMean E "PM10"),
            ("no2_avg", envMean E "NO2"), ("so2_avg", envMean E "SO2"),
            ("o3_avg", envMean E "O3")], some E) := by
  simp only [get_environment_stats, hne, Bool.false_eq_true, if_false, hclean]

theorem envdh_unfold (t : Table) (a b c : List CellVal)
    (hne : t.isEmpty = false)
    (h1 : t.col "Monthly mean/average concentration - PM2.5" = .ok a)
    (h2 : t.col "Monthly mean concentration - PM10" = .ok b)
    (h3 : t.col "Monthly mean concentration - NO2" = .ok c) :
    get_environment_stats_dh (some t) = .ok
      [("pm25_avg",
         match nanmean (a.map clean_numeric_dh) with
         | some q => pyRound 1 q
         | none => 0),
       ("pm10_avg",
         match nanmean (b.map clean_numeric_dh) with
         | some q => pyRound 1 q
         | none => 0),
       ("no2_avg",
         match nanmean (c.map clean_numeric_dh) with
         | some q => pyRound 2 q
         | none => 0)] := by
  simp only [get_environment_stats_dh, hne, Bool.false_eq_true, if_false, h1, h2, h3]
  rfl

/-- C5: in both environment aggregations, the sentinel reading "NA" is
coerced to missing and excluded from the mean rather than counted as zero:
whenever the PM2.5 column reads ["10", "NA", "20"] (and the other pollutant
columns are present), the reported PM2.5 average is 15, not 10. -/
theorem C5_env_na_excluded (t : Table) (l10 l2 l3 l4 : List CellVal)
    (hne : t.isEmpty = false)
    (h25 : t.col "Monthly mean/average concentration - PM2.5" =
      .ok [.vStr "10", .vStr "NA", .vStr "20"])
    (h10 : t.col "Monthly mean concentration - PM10" = .ok l10)
    (hn2 : t.col "Monthly mean concentration - NO2" = .ok l2)
    (hs2 : t.col "Monthly mean concentration - SO2" = .ok l3)
    (ho3 : t.col "Monthly mean concentration - O3" = .ok l4) :
    okLookup (get_environment_stats (some t)).1 "pm25_avg" = some (some 15) ∧
    okLookup (get_environment_stats_dh (some t)) "pm25_avg" = some 15 := by
  constructor
  · have hclean : cleanCols t envSrcCols =
        (((((t.setCol "PM2.5" (([CellVal.vStr "10", CellVal.vStr "NA",
            CellVal.vStr "20"].map clean_numeric).map numToCell)).setCol "PM10"
            ((l10.map clean_numeric).map numToCell)).setCol "NO2"
            ((l2.map clean_numeric).map numToCell)).setCol "SO2"
            ((l3.map clean_numeric).map numToCell)).setCol "O3"
            ((l4.map clean_numeric).map numToCell), none) := by
      simp only [envSrcCols]
      rw [cleanCols_cons _ _ _ _ _ h25]
      rw [cleanCols_cons _ _ _ _ _
        (by rw [col_setCol_ne _ _ _ _ (by decide)]; exact h10)]
      rw [cleanCols_cons _ _ _ _ _
        (by rw [col_setCol_ne _ _ _ _ (by decide),
                col_setCol_ne _ _ _ _ (by decide)]; exact hn2)]
      rw [cleanCols_cons _ _ _ _ _
        (by rw [col_setCol_ne _ _ _ _ (by decide),
                col_setCol_ne _ _ _ _ (by decide),
                col_setCol_ne _ _ _ _ (by decide)]; exact hs2)]
      rw [cleanCols_cons _ _ _ _ _
        (by rw [col_setCol_ne _ _ _ _ (by decide),
                col_setCol_ne _ _ _ _ (by decide),
                col_setCol_ne _ _ _ _ (by decide),
                col_setCol_ne _ _ _ _ (by decide)]; exact ho3)]
      rfl
    have hmain := envstats_unfold t _ hne hclean
    have hmean : envMean
        (((((t.setCol "PM2.5" (([CellVal.vStr "10", CellVal.vStr "NA",
            CellVal.vStr "20"].map clean_numeric).map numToCell)).setCol "PM10"
            ((l10.map clean_numeric).map numToCell)).setCol "NO2"
            ((l2.map clean_numeric).map numToCell)).setCol "SO2"
            ((l3.map clean_numeric).map numToCell)).setCol "O3"
            ((l4.map clean_numeric).map numToCell)) "PM2.5" = some 15 := by
      unfold envMean
      rw [col_setCol_ne _ _ _ _ (by decide),
          col_setCol_ne _ _ _ _ (by decide),
          col_setCol_ne _ _ _ _ (by decide),
          col_setCol_ne _ _ _ _ (by decide),
          col_setCol_self]
      with_unfolding_all decide
    rw [hmain]
    exact congrArg some hmean
  · have hdm : (match nanmean ([CellVal.vStr "10", CellVal.vStr "NA",
        CellVal.vStr "20"].map clean_numeric_dh) with
        | some q => pyRound 1 q
        | none => 0) = (15 : ℚ) := by
      with_unfolding_all decide
    have hdh := envdh_unfold t _ l10 l2 hne h25 h10 hn2
    rw [hdh]
    exact congrArg some hdm

/-- Witness for C5: the concrete environment table `envC5`. -/
theorem C5_env_na_excluded_witness :
    envC5.isEmpty = false ∧
    envC5.col "Monthly mean/average concentration - PM2.5" =
      .ok [.vStr "10", .vStr "NA", .vStr "20"] ∧
    okLookup (get_environment_stats (some envC5)).1 "pm25_avg" =
      some (some 15) := by
  have H := C5_env_na_excluded envC5
    [.vNum 1, .vNum 2, .vNum 3] [.vNum 1, .vNum 2, .vNum 3]
    [.vNum 1, .vNum 2, .vNum 3] [.vNum 1, .vNum 2, .vNum 3]
    (by decide) (by with_unfolding_all decide) (by with_unfolding_all decide)
    (by with_unfolding_all decide) (by with_unfolding_all decide)
    (by with_unfolding_all decide)
  exact ⟨by decide, by with_unfolding_all decide, H.1⟩
theorem crimes_trend_ok (t : Table) (y v : List CellVal)
    (hne : t.isEmpty = false) (hy : t.col "Year" = .ok y)
    (hv : t.col "Total number of crimes recorded" = .ok v) :
    get_crimes_trend (some t) =
      .ok (some (List.insertionSort yearLE (y.zip v))) := by
  simp only [get_crimes_trend, hne, Bool.false_eq_true, if_false, hy, hv]
  rfl

theorem crimes_trend_err1 (t : Table) (e : PyErr)
    (hne : t.isEmpty = false) (hy : t.col "Year" = .error e) :
    get_crimes_trend (some t) = .error e := by
  simp only [get_crimes_trend, hne, Bool.false_eq_true, if_false, hy]
  rfl

theorem crimes_trend_err2 (t : Table) (y : List CellVal) (e : PyErr)
    (hne : t.isEmpty = false) (hy : t.col "Year" = .ok y)
    (hv : t.col "Total number of crimes recorded" = .error e) :
    get_crimes_trend (some t) = .error e := by
  simp only [get_crimes_trend, hne, Bool.false_eq_true, if_false, hy, hv]
  rfl

theorem crime_data_ok (t : Table) (y v : List CellVal)
    (hne : t.isEmpty = false) (hy : t.col "Year" = .ok y)
    (hv : t.col "Total number of crimes recorded" = .ok v) :
    get_crime_data (some t) =
      .ok (some (List.insertionSort yearLE (y.zip v))) := by
  simp only [get_crime_data, hne, Bool.false_eq_true, if_false, hy, hv]
  rfl

theorem crime_data_err1 (t : Table) (e : PyErr)
    (hne : t.isEmpty = false) (hy : t.col "Year" = .error e) :
    get_crime_data (some t) = .error e := by
  simp only [get_crime_data, hne, Bool.false_eq_true, if_false, hy]
  rfl

theorem crime_data_err2 (t : Table) (y : List CellVal) (e : PyErr)
    (hne : t.isEmpty = false) (hy : t.col "Year" = .ok y)
    (hv : t.col "Total number of crimes recorded" = .error e) :
    get_crime_data (some t) = .error e := by
  simp only [get_crime_data, hne, Bool.false_eq_true, if_false, hy, hv]
  rfl

/-- C6: with the grouping and value columns present in a nonempty table,
`get_ward_summary` returns the per-ward (key, summed value) pairs sorted
descending by summed value, truncated with `top_n` only after the sort: the
result is the k-prefix of the descending-sorted full grouping, has exactly
min(k, number of distinct groups) entries, each entry is one of the group
sums, and every excluded group sum is ≤ every included one.
`get_zone_summary` returns the full descending-sorted grouping. -/
theorem C6_group_by_sorted (t : Table) (vc : String) (k : ℕ)
    (gcol zcol vcol : List CellVal)
    (hne : t.isEmpty = false)
    (hg : t.col "Ward Name" = .ok gcol)
    (hz : t.col "Zone Name" = .ok zcol)
    (hv : t.col vc = .ok vcol) :
    (get_ward_summary (some t) vc k =
      some ((List.insertionSort valGE
        (groupBySum (keyedRows gcol vcol))).take k)) ∧
    ((List.insertionSort valGE (groupBySum (keyedRows gcol vcol))).take k).length
      = min k ((keyedRows gcol vcol).map Prod.fst).dedup.length ∧
    ((List.insertionSort valGE
      (groupBySum (keyedRows gcol vcol))).take k).Sorted valGE ∧
    (∀ p ∈ (List.insertionSort valGE (groupBySum (keyedRows gcol vcol))).take k,
      p ∈ groupBySum (keyedRows gcol vcol)) ∧
    (∀ q ∈ groupBySum (keyedRows gcol vcol),
      q ∉ (List.insertionSort valGE (groupBySum (keyedRows gcol vcol))).take k →
      ∀ p ∈ (List.insertionSort valGE (groupBySum (keyedRows gcol vcol))).take k,
        q.2 ≤ p.2) ∧
    (get_zone_summary (some t) vc =
      some (List.insertionSort valGE (groupBySum (keyedRows zcol vcol)))) ∧
    (List.insertionSort valGE (groupBySum (keyedRows zcol vcol))).Sorted valGE ∧
    (List.insertionSort valGE (groupBySum (keyedRows zcol vcol))).Perm
      (groupBySum (keyedRows zcol vcol)) := by
  refine ⟨?_, ?_, ?_, ?_, ?_, ?_,
    List.sorted_insertionSort valGE _, List.perm_insertionSort valGE _⟩
  · simp [get_ward_summary, hne, hg, hv]
  · rw [List.length_take, List.length_insertionSort]
    simp [groupBySum]
  · exact List.Pairwise.sublist (List.take_sublist _ _)
      (List.sorted_insertionSort valGE _)
  · intro p hp
    exact (List.mem_insertionSort valGE).mp (List.mem_of_mem_take hp)
  · intro q hq hnq p hp
    have hq2 : q ∈ List.insertionSort valGE (groupBySum (keyedRows gcol vcol)) :=
      (List.mem_insertionSort valGE).mpr hq
    rw [← List.take_append_drop k
      (List.insertionSort valGE (groupBySum (keyedRows gcol vcol)))] at hq2
    rcases List.mem_append.mp hq2 with h1 | h2
    · exact absurd h1 hnq
    · exact (List.sorted_insertionSort valGE _).rel_of_mem_take_of_mem_drop hp h2
  · simp [get_zone_summary, hne, hz, hv]

/-- Witness for C6: the table `wardT` (ward sums A = 3, B = 5, C = 4) with
top_n = 2; the result is the two largest sums, descending. -/
theorem C6_group_by_sorted_witness :
    wardT.isEmpty = false ∧
    get_ward_summary (some wardT) "V" 2 =
      some ((List.insertionSort valGE (groupBySum (keyedRows
        [.vStr "A", .vStr "B", .vStr "A", .vStr "C"]
        [.vNum 1, .vNum 5, .vNum 2, .vNum 4]))).take 2) ∧
    ((List.insertionSort valGE (groupBySum (keyedRows
        [.vStr "A", .vStr "B", .vStr "A", .vStr "C"]
        [.vNum 1, .vNum 5, .vNum 2, .vNum 4]))).take 2).Sorted valGE ∧
    get_ward_summary (some wardT) "V" 2 = some [("B", 5), ("C", 4)] := by
  have H := C6_group_by_sorted wardT "V" 2
    [.vStr "A", .vStr "B", .vStr "A", .vStr "C"]
    [.vStr "Z1", .vStr "Z2", .vStr "Z1", .vStr "Z2"]
    [.vNum 1, .vNum 5, .vNum 2, .vNum 4]
    (by decide) (by with_unfolding_all decide) (by with_unfolding_all decide)
    (by with_unfolding_all decide)
  exact ⟨by decide, H.1, H.2.2.1, by with_unfolding_all decide⟩

/-- C7 counterexample: the environment trend is NOT sorted ascending by its
time column — it returns the last rows in input order. For Month -Year
values ["2021-02", "2021-01"] the output keeps that order even though
"2021-01" < "2021-02". -/
theorem C7_counterexample :
    get_environment_trend (some envTrendT) =
      .ok (some [(.vStr "2021-02", some 10, some 1),
                 (.vStr "2021-01", some 20, some 2)]) ∧
    ("2021-01" < "2021-02") := by
  constructor
  · with_unfolding_all decide
  · with_unfolding_all decide

/-- C7 (amended): the crimes trend (in both implementations) is sorted
ascending by Year regardless of input row order — for years
[2019, 2021, 2020] with counts [100, 300, 200] it returns
[(2019, 100), (2020, 200), (2021, 300)] — but the environment trend
performs no sort: it returns the last 12 (Month -Year, PM2.5, PM10) rows in
frame order. -/
theorem C7_trend :
    (∀ c : Option Table, ∀ l, get_crimes_trend c = .ok (some l) →
      l.Sorted yearLE) ∧
    (∀ c : Option Table, ∀ l, get_crime_data c = .ok (some l) →
      l.Sorted yearLE) ∧
    get_crimes_trend (some crimesT) =
      .ok (some [(.vNum 2019, .vNum 100), (.vNum 2020, .vNum 200),
                 (.vNum 2021, .vNum 300)]) ∧
    (∀ t : Table, ∀ my p25 p10 : List CellVal, t.isEmpty = false →
      t.col "Monthly mean/average concentration - PM2.5" = .ok p25 →
      t.col "Monthly mean concentration - PM10" = .ok p10 →
      t.col "Month -Year" = .ok my →
      get_environment_trend (some t) =
        .ok (some (tailN 12
          (my.zip ((p25.map clean_numeric).zip (p10.map clean_numeric)))))) := by
  refine ⟨?_, ?_, ?_, ?_⟩
  · intro c l h
    rcases c with _ | t
    · simp [get_crimes_trend] at h
    · rcases he : t.isEmpty with _ | _
      · rcases hy : t.col "Year" with e | ycol
        · rw [crimes_trend_err1 t e he hy] at h
          exact absurd h (by simp)
        · rcases hv : t.col "Total number of crimes recorded" with e2 | vcol
          · rw [crimes_trend_err2 t ycol e2 he hy hv] at h
            exact absurd h (by simp)
          · rw [crimes_trend_ok t ycol vcol he hy hv] at h
            simp only [Except.ok.injEq, Option.some.injEq] at h
            subst h
            exact List.sorted_insertionSort yearLE _
      · simp [get_crimes_trend, he] at h
  · intro c l h
    rcases c with _ | t
    · simp [get_crime_data] at h
    · rcases he : t.isEmpty with _ | _
      · rcases hy : t.col "Year" with e | ycol
        · rw [crime_data_err1 t e he hy] at h
          exact absurd h (by simp)
        · rcases hv : t.col "Total number of crimes recorded" with e2 | vcol
          · rw [crime_data_err2 t ycol e2 he hy hv] at h
            exact absurd h (by simp)
          · rw [crime_data_ok t ycol vcol he hy hv] at h
            simp only [Except.ok.injEq, Option.some.injEq] at h
            subst h
            exact List.sorted_insertionSort yearLE _
      · simp [get_crime_data, he] at h
  · with_unfolding_all decide
  · intro t my p25 p10 hne h1 h2 h3
    simp only [get_environment_trend, hne, Bool.false_eq_true, if_false,
      h1, h2, h3]
    rfl

/-- Witness for C7: the sortedness conjunct at the concrete crimes table
and the no-sort environment conjunct at `envTrendT`. -/
theorem C7_trend_witness :
    get_crimes_trend (some crimesT) =
      .ok (some [(.vNum 2019, .vNum 100), (.vNum 2020, .vNum 200),
                 (.vNum 2021, .vNum 300)]) ∧
    ([((CellVal.vNum 2019 : CellVal), (CellVal.vNum 100 : CellVal)),
      (.vNum 2020, .vNum 200), (.vNum 2021, .vNum 300)]).Sorted yearLE ∧
    envTrendT.isEmpty = false ∧
    get_environment_trend (some envTrendT) =
      .ok (some (tailN 12 ([CellVal.vStr "2021-02", CellVal.vStr "2021-01"].zip
        (([CellVal.vNum 10, CellVal.vNum 20].map clean_numeric).zip
         ([CellVal.vNum 1, CellVal.vNum 2].map clean_numeric))))) := by
  have hc : get_crimes_trend (some crimesT) =
      .ok (some [(.vNum 2019, .vNum 100), (.vNum 2020, .vNum 200),
                 (.vNum 2021, .vNum 300)]) := by
    with_unfolding_all decide
  refine ⟨hc, C7_trend.1 (some crimesT) _ hc, by decide, ?_⟩
  exact C7_trend.2.2.2 envTrendT _ _ _ (by decide)
    (by with_unfolding_all decide) (by with_unfolding_all decide)
    (by with_unfolding_all decide)
